import Mathlib

/-!
Shallow embedding of the rental-management platform (Next.js API routes) used
to verify the rental lifecycle specification.

Entities mirror `src/types/index.ts`; each operation mirrors one API route
handler.  Dates are modelled as year/month/day triples with JavaScript
`Date.setMonth`/`setFullYear` normalisation (day overflow rolls into the next
month).  Handlers are functions `… → DB → DB × OpOut α`: error paths return
the database unchanged (the handlers return before any `writeJSON` call).
String-falsiness checks (`!x`) on string inputs are modelled as `x == ""`,
and on numeric inputs as `x == 0`.  Interpolated fragments of error messages
are elided; the fixed prefix of each source message is kept.
-/

namespace Landlord

/-- Caller roles resolved by the identity context (`parseToken`). -/
inductive Role where
  | tenant
  | landlord
  | bank
  | ministry
deriving DecidableEq, Repr

/-- The authenticated caller, as resolved from the bearer token. -/
structure Caller where
  userId : String
  role : Role
deriving DecidableEq, Repr

/-- Rental lifecycle status (`RentalStatus` in `src/types/index.ts`). -/
inductive RentalStatus where
  | pending
  | active
  | renewal_pending
  | terminating
  | completed
  | cancelled
deriving DecidableEq, Repr

/-- Status of a termination or renewal sub-request. -/
inductive ReqStatus where
  | pending
  | approved
  | rejected
deriving DecidableEq, Repr

/-- Status of a payment record. -/
inductive PayStatus where
  | paid
  | pending
  | overdue
  | failed
deriving DecidableEq, Repr

/-- A calendar date (ISO `YYYY-MM-DD`); `m` ranges over 1..12, `d` over 1..31. -/
structure Date where
  y : Int
  m : Nat
  d : Nat
deriving DecidableEq, Repr

/-- A calendar month (ISO `YYYY-MM`), as used for `Payment.month`. -/
structure Month where
  y : Int
  m : Nat
deriving DecidableEq, Repr

/-- Gregorian leap-year test, as in the JavaScript Date implementation. -/
def isLeap (y : Int) : Bool :=
  y % 4 == 0 && (y % 100 != 0 || y % 400 == 0)

/-- Number of days in a month (month in 1..12). -/
def daysInMonth (y : Int) (m : Nat) : Nat :=
  match m with
  | 1 => 31
  | 2 => if isLeap y then 29 else 28
  | 3 => 31
  | 4 => 30
  | 5 => 31
  | 6 => 30
  | 7 => 31
  | 8 => 31
  | 9 => 30
  | 10 => 31
  | 11 => 30
  | 12 => 31
  | _ => 31

/-- Normalise a day-of-month overflow the way the JavaScript `Date` setters
do: a day count exceeding the month length rolls into the following month
(one step suffices for the day values 1..31 that occur in ISO dates). -/
def Date.rollDay (y : Int) (m : Nat) (d : Nat) : Date :=
  let dim := daysInMonth y m
  if d ≤ dim then ⟨y, m, d⟩
  else if m == 12 then ⟨y + 1, 1, d - dim⟩
  else ⟨y, m + 1, d - dim⟩

/-- JavaScript `date.setMonth(date.getMonth() + k)`: month arithmetic rolls
over year boundaries, then day overflow is normalised. -/
def Date.addMonths (dt : Date) (k : Int) : Date :=
  let total : Int := dt.y * 12 + (dt.m : Int) - 1 + k
  Date.rollDay (total.ediv 12) ((total.emod 12).toNat + 1) dt.d

/-- JavaScript `date.setFullYear(date.getFullYear() + k)` (Feb 29 rolls to
Mar 1 on a non-leap target year). -/
def Date.addYears (dt : Date) (k : Int) : Date :=
  Date.rollDay (dt.y + k) dt.m dt.d

/-- JavaScript `date.setDate(date.getDate() + 1)`. -/
def Date.nextDay (dt : Date) : Date :=
  Date.rollDay dt.y dt.m (dt.d + 1)

/-- Strict calendar order on dates (for valid dates this coincides with the
timestamp order JavaScript uses when comparing midnight-UTC dates). -/
def Date.ltb (a b : Date) : Bool :=
  if a.y < b.y then true
  else if b.y < a.y then false
  else if a.m < b.m then true
  else if b.m < a.m then false
  else decide (a.d < b.d)

/-- Whole-month difference `(end.getFullYear() - start.getFullYear()) * 12 +
(end.getMonth() - start.getMonth())`, as in the request-rental route. -/
def monthsDiff (a b : Date) : Int :=
  (b.y - a.y) * 12 + ((b.m : Int) - (a.m : Int))

/-- Property record (`Property` in `src/types/index.ts`; fields not read by
the verified routes, such as `address` and `createdAt`, are elided). -/
structure Property where
  id : String
  ownerId : String
  rent : Int
  available : Bool
  startDate : Option Date
  endDate : Option Date
deriving DecidableEq, Repr

/-- Rental agreement record (`Rental` in `src/types/index.ts`). -/
structure Rental where
  id : String
  tenantId : String
  landlordId : String
  propertyId : String
  startDate : Date
  endDate : Option Date
  status : RentalStatus
  monthlyRent : Int
deriving DecidableEq, Repr

/-- Termination sub-request (`RentalTermination` in `src/types/index.ts`). -/
structure RentalTermination where
  id : String
  rentalId : String
  tenantId : String
  landlordId : String
  requestedEndDate : Date
  status : ReqStatus
deriving DecidableEq, Repr

/-- Renewal sub-request (`RentalRenewal` in `src/types/index.ts`). -/
structure RentalRenewal where
  id : String
  rentalId : String
  tenantId : String
  landlordId : String
  renewalDuration : Int
  requestedStartDate : Date
  status : ReqStatus
deriving DecidableEq, Repr

/-- Payment record (`Payment` in `src/types/index.ts`). -/
structure Payment where
  id : String
  rentalId : String
  amount : Int
  month : Month
  status : PayStatus
deriving DecidableEq, Repr

/-- The JSON record store: one collection per entity
(`rentals.json`, `properties.json`, `rental_terminations.json`,
`rental_renewals.json`, `payments.json`). -/
structure DB where
  rentals : List Rental
  properties : List Property
  terminations : List RentalTermination
  renewals : List RentalRenewal
  payments : List Payment
deriving DecidableEq, Repr

/-- Outcome of a route handler: a success payload, or an HTTP status code
with an error message (`{success: false, message, status}`). -/
inductive OpOut (α : Type) where
  | success : α → OpOut α
  | failure : Nat → String → OpOut α
deriving DecidableEq, Repr

/-- Whether a handler outcome is a success. -/
def OpOut.isSuccess {α : Type} : OpOut α → Bool
  | .success _ => true
  | .failure _ _ => false

/-- The live statuses of the availability filters: a rental with one of these
statuses occupies its property. -/
def RentalStatus.isLive (s : RentalStatus) : Bool :=
  s == .active || s == .renewal_pending || s == .terminating

/-- The rentals that block property `pid` at date `t` (the filter of
`GET /api/properties/check-availability`): live status and no end date, or
an end date strictly after `t`. -/
def liveRentalsOn (db : DB) (pid : String) (t : Date) : List Rental :=
  db.rentals.filter fun r =>
    r.propertyId == pid && r.status.isLive &&
      (match r.endDate with
       | none => true
       | some e => t.ltb e)

/-- Invariant 1 of the specification: at most one live rental per property. -/
def singleLiveRental (db : DB) (pid : String) (t : Date) : Prop :=
  (liveRentalsOn db pid t).length ≤ 1

instance (db : DB) (pid : String) (t : Date) : Decidable (singleLiveRental db pid t) :=
  inferInstanceAs (Decidable (_ ≤ _))

/-- `POST /api/rentals/request` (`src/app/api/rentals/request/route.ts`).
`rentalDuration` is the optional body field; `none` models an absent field
and, per JavaScript `||`, a present value `0` also falls back to the
default.  `newId` stands for `generateId("r")`, `now` for `new Date()`
truncated to its date (where the route compares the property start date
with `new Date()`, both branches of the equal-date boundary produce the same
start date, so time of day is irrelevant to the result). -/
def requestRental (caller : Caller) (propertyId : String)
    (rentalDuration : Option Int) (newId : String) (now : Date)
    (db : DB) : DB × OpOut Rental :=
  if caller.role != Role.tenant then
    (db, .failure 403 "Only tenants can request rentals")
  else if propertyId == "" then
    (db, .failure 400 "Property ID is required")
  else
    match db.properties.find? (fun p => p.id == propertyId) with
    | none => (db, .failure 404 "Property not found")
    | some property =>
      if property.available == false then
        (db, .failure 400 "Property is not available")
      else if (db.rentals.find? (fun r =>
          r.tenantId == caller.userId && r.propertyId == propertyId &&
            r.status == RentalStatus.pending)).isSome then
        (db, .failure 400 "You already have a pending request for this property")
      else if 20 ≤ (db.rentals.filter (fun r =>
          r.tenantId == caller.userId &&
            (r.status == RentalStatus.active || r.status == RentalStatus.pending ||
             r.status == RentalStatus.renewal_pending ||
             r.status == RentalStatus.terminating))).length then
        (db, .failure 400 "You can only have up to 20 active or pending rental requests at a time.")
      else
        let rentalStartDate :=
          match property.startDate with
          | some s => if now.ltb s then s else now
          | none => now
        let defaultDuration : Int :=
          match property.startDate, property.endDate with
          | some s, some e => monthsDiff s e
          | _, _ => 12
        let duration : Int :=
          match rentalDuration with
          | some n => if n == 0 then defaultDuration else n
          | none => defaultDuration
        if duration < defaultDuration then
          (db, .failure 400 "Rental duration cannot be less than the landlord default")
        else if 24 < duration then
          (db, .failure 400 "Rental duration cannot exceed 24 months (2 years)")
        else
          let newRental : Rental :=
            { id := newId
              tenantId := caller.userId
              landlordId := property.ownerId
              propertyId := propertyId
              startDate := rentalStartDate
              endDate := some (rentalStartDate.addMonths duration)
              status := .pending
              monthlyRent := property.rent }
          ({ db with rentals := db.rentals ++ [newRental] }, .success newRental)

/-- `POST /api/rentals/approve` (the approve/decline rental route).
`action` is the body string `"approve"` or `"decline"`. -/
def approveRental (caller : Caller) (rentalId : String) (action : String)
    (db : DB) : DB × OpOut Rental :=
  if caller.role != Role.landlord then
    (db, .failure 403 "Only landlords can approve rentals")
  else if rentalId == "" || action == "" then
    (db, .failure 400 "Rental ID and action are required")
  else if action != "approve" && action != "decline" then
    (db, .failure 400 "Action must be approve or decline")
  else
    match db.rentals.find? (fun r => r.id == rentalId) with
    | none => (db, .failure 404 "Rental not found")
    | some rental =>
      match db.properties.find? (fun p => p.id == rental.propertyId) with
      | none => (db, .failure 404 "Property not found")
      | some property =>
        if property.ownerId != caller.userId then
          (db, .failure 403 "You do not own this property")
        else if rental.status != RentalStatus.pending then
          (db, .failure 400 "Rental is not pending")
        else if action == "approve" then
          let endDate :=
            match rental.endDate with
            | some e => some e
            | none => some (rental.startDate.addYears 1)
          let updatedRentals := db.rentals.map fun r =>
            if r.id == rentalId then { r with status := .active, endDate := endDate } else r
          let updatedProperties := db.properties.map fun p =>
            if p.id == property.id then { p with available := false } else p
          ({ db with rentals := updatedRentals, properties := updatedProperties },
           .success { rental with status := .active, endDate := endDate })
        else
          let updatedRentals := db.rentals.map fun r =>
            if r.id == rentalId then { r with status := .cancelled } else r
          ({ db with rentals := updatedRentals },
           .success { rental with status := .cancelled })

/-- `POST /api/rentals/terminate` (the termination-request route appended to
`src/app/api/rentals/request/route.ts`).  `now`/`nowTod` model `new Date()`:
the current date plus its time-of-day remainder in milliseconds; the source
compares the midnight timestamp of `requestedEndDate` against `now` shifted
two months forward, so the boundary case depends on `nowTod`.  `newId` stands
for `generateId("term")`. -/
def requestTermination (caller : Caller) (rentalId : String)
    (requestedEndDate : Date) (newId : String) (now : Date) (nowTod : Nat)
    (db : DB) : DB × OpOut RentalTermination :=
  if caller.role != Role.tenant then
    (db, .failure 403 "Only tenants can request termination")
  else if rentalId == "" then
    (db, .failure 400 "Rental ID and end date are required")
  else
    match db.rentals.find? (fun r => r.id == rentalId) with
    | none => (db, .failure 404 "Rental not found")
    | some rental =>
      if rental.tenantId != caller.userId then
        (db, .failure 403 "You do not own this rental")
      else if rental.status != RentalStatus.active then
        (db, .failure 400 "Only active rentals can be terminated")
      else if (db.terminations.find? (fun t =>
          t.rentalId == rentalId && t.status == ReqStatus.pending)).isSome then
        (db, .failure 400 "A termination request is already pending for this rental")
      else
        let twoMonthsFromNow := now.addMonths 2
        if requestedEndDate.ltb twoMonthsFromNow ||
            (requestedEndDate == twoMonthsFromNow && decide (0 < nowTod)) then
          (db, .failure 400 "Termination date must be at least 2 months from today")
        else
          let termination : RentalTermination :=
            { id := newId
              rentalId := rentalId
              tenantId := caller.userId
              landlordId := rental.landlordId
              requestedEndDate := requestedEndDate
              status := .pending }
          let updatedRentals := db.rentals.map fun r =>
            if r.id == rentalId then
              { r with status := .terminating, endDate := some requestedEndDate }
            else r
          ({ db with terminations := db.terminations ++ [termination],
                     rentals := updatedRentals },
           .success termination)

/-- `POST /api/rentals/termination/approve`
(`src/app/api/rentals/termination/approve/route.ts`).  The body field
`approve` picks approval or rejection.  The route self-heals a missing or
stale `landlordId` on the termination before deciding; that heal is
persisted only on the success path (error paths return before `writeJSON`). -/
def approveTermination (caller : Caller) (terminationId : String)
    (approve : Bool) (db : DB) : DB × OpOut RentalTermination :=
  if caller.role != Role.landlord then
    (db, .failure 403 "Only landlords can approve terminations")
  else if terminationId == "" then
    (db, .failure 400 "Termination ID and approval status are required")
  else
    match db.terminations.find? (fun t => t.id == terminationId) with
    | none => (db, .failure 404 "Termination request not found")
    | some termination =>
      match db.rentals.find? (fun r => r.id == termination.rentalId) with
      | none => (db, .failure 404 "Rental not found")
      | some _rental =>
        match db.properties.find? (fun p => p.id == _rental.propertyId) with
        | none => (db, .failure 404 "Property not found")
        | some property =>
          if property.ownerId != caller.userId then
            (db, .failure 403 "You do not own this property")
          else
            let healed := db.terminations.map fun t =>
              if t.id == terminationId then
                (if t.landlordId == "" || t.landlordId != property.ownerId then
                  { t with landlordId := property.ownerId }
                else t)
              else t
            if termination.status != ReqStatus.pending then
              (db, .failure 400 "This termination request has already been processed")
            else
              let newStatus : ReqStatus := if approve then .approved else .rejected
              let updatedTerminations := healed.map fun t =>
                if t.id == terminationId then { t with status := newStatus } else t
              let updatedRentals :=
                if approve then
                  db.rentals.map fun r =>
                    if r.id == termination.rentalId then
                      { r with status := .completed,
                               endDate := some termination.requestedEndDate }
                    else r
                else
                  db.rentals.map fun r =>
                    if r.id == termination.rentalId then
                      { r with status := .active }
                    else r
              let healedTermination :=
                if termination.landlordId == "" || termination.landlordId != property.ownerId then
                  { termination with landlordId := property.ownerId, status := newStatus }
                else { termination with status := newStatus }
              ({ db with terminations := updatedTerminations,
                         rentals := updatedRentals },
               .success healedTermination)

/-- `POST /api/rentals/renew` (`src/app/api/rentals/renew/route.ts`).
`newId` stands for `generateId("renew")`.  A `renewalDuration` of `0` fails
the JavaScript `!renewalDuration` required-field check. -/
def requestRenewal (caller : Caller) (rentalId : String)
    (renewalDuration : Int) (newId : String) (db : DB) :
    DB × OpOut RentalRenewal :=
  if caller.role != Role.tenant then
    (db, .failure 403 "Only tenants can request renewal")
  else if rentalId == "" || renewalDuration == 0 then
    (db, .failure 400 "Rental ID and renewal duration are required")
  else if renewalDuration < 1 || 24 < renewalDuration then
    (db, .failure 400 "Renewal duration must be between 1 and 24 months")
  else
    match db.rentals.find? (fun r => r.id == rentalId) with
    | none => (db, .failure 404 "Rental not found")
    | some rental =>
      if rental.tenantId != caller.userId then
        (db, .failure 403 "You do not own this rental")
      else if rental.status != RentalStatus.active then
        (db, .failure 400 "Only active rentals can be renewed")
      else if (db.renewals.find? (fun r =>
          r.rentalId == rentalId && r.status == ReqStatus.pending)).isSome then
        (db, .failure 400 "A renewal request is already pending for this rental")
      else
        let landlordId :=
          if rental.landlordId == "" then
            match db.properties.find? (fun p => p.id == rental.propertyId) with
            | some property => property.ownerId
            | none => ""
          else rental.landlordId
        let currentEndDate :=
          match rental.endDate with
          | some e => e
          | none => rental.startDate
        let renewal : RentalRenewal :=
          { id := newId
            rentalId := rentalId
            tenantId := caller.userId
            landlordId := landlordId
            renewalDuration := renewalDuration
            requestedStartDate := currentEndDate.nextDay
            status := .pending }
        let updatedRentals := db.rentals.map fun r =>
          if r.id == rentalId then { r with status := .renewal_pending } else r
        ({ db with renewals := db.renewals ++ [renewal],
                   rentals := updatedRentals },
         .success renewal)

/-- `POST /api/payments/create` (`src/app/api/payments/create/route.ts`).
`newId` stands for `generateId("pay")`; the month string is modelled as a
structured `Month` value, which makes the `YYYY-MM` format check vacuous. -/
def createPayment (caller : Caller) (rentalId : String) (month : Month)
    (amount : Int) (newId : String) (db : DB) : DB × OpOut Payment :=
  if caller.role != Role.tenant then
    (db, .failure 403 "Only tenants can make payments")
  else if rentalId == "" || amount == 0 then
    (db, .failure 400 "Rental ID, month, and amount are required")
  else if amount ≤ 0 then
    (db, .failure 400 "Amount must be a positive number")
  else
    match db.rentals.find? (fun r => r.id == rentalId) with
    | none => (db, .failure 404 "Rental not found")
    | some rental =>
      if rental.tenantId != caller.userId then
        (db, .failure 403 "You do not have access to this rental")
      else if rental.status != RentalStatus.active then
        (db, .failure 400 "Rental is not active")
      else if (db.payments.find? (fun p =>
          p.rentalId == rentalId && p.month == month)).isSome then
        (db, .failure 400 "Payment for this month already exists")
      else if amount != rental.monthlyRent then
        (db, .failure 400 "Amount must be exactly the monthly rent")
      else
        let newPayment : Payment :=
          { id := newId
            rentalId := rentalId
            amount := amount
            month := month
            status := .paid }
        ({ db with payments := db.payments ++ [newPayment] }, .success newPayment)

/-- JavaScript `Math.round` on rationals: round half away from zero becomes
`⌊x + 1/2⌋` for the values at hand (`Math.round` rounds halves up). -/
def jsRound (q : ℚ) : Int := Int.floor (q + 1 / 2)

/-- The compliance-rate computation of `GET /api/dashboard/ministry`
(`src/app/api/dashboard/ministry/route.ts`): among rentals whose status is
exactly `active`, the percentage having a `paid` payment for the current
month, rounded to two decimals (`Math.round(rate * 100) / 100`). -/
def ministryComplianceRate (db : DB) (currentMonth : Month) : ℚ :=
  let activeCount := (db.rentals.filter (fun r => r.status == RentalStatus.active)).length
  let activeRentalIds :=
    (db.rentals.filter (fun r => r.status == RentalStatus.active)).map (fun r => r.id)
  let compliantRentals := activeRentalIds.filter fun rid =>
    (db.payments.find? (fun p =>
      p.rentalId == rid && p.month == currentMonth && p.status == PayStatus.paid)).isSome
  let rate : ℚ :=
    if 0 < activeCount then ((compliantRentals.length : ℚ) / (activeCount : ℚ)) * 100
    else 0
  (jsRound (rate * 100) : ℚ) / 100

/-- `GET /api/dashboard/ministry` as a handler: it only reads the record
store (the route performs no `writeJSON`), so the database comes back
unchanged. -/
def ministryDashboardGET (caller : Caller) (db : DB) (currentMonth : Month) :
    DB × OpOut ℚ :=
  if caller.role != Role.ministry then
    (db, .failure 401 "Unauthorized")
  else
    (db, .success (ministryComplianceRate db currentMonth))

/-- Whether rental `rid` has a `paid` payment for month `m`. -/
def hasPaidPayment (db : DB) (rid : String) (m : Month) : Bool :=
  db.payments.any fun p => p.rentalId == rid && p.month == m && p.status == PayStatus.paid

/-- The compliance rate as the specification words it: the fraction of live
rentals (status in {active, renewal_pending, terminating}) that have a
`paid` payment for the current month (0 when there are none). -/
def liveComplianceFraction (db : DB) (m : Month) : ℚ :=
  let liveCount := db.rentals.countP fun r => r.status.isLive
  let paidCount := db.rentals.countP fun r => r.status.isLive && hasPaidPayment db r.id m
  if liveCount = 0 then 0 else (paidCount : ℚ) / (liveCount : ℚ)

/-- The same fraction restricted to rentals whose status is exactly
`active` — the population the ministry route actually uses. -/
def activeComplianceFraction (db : DB) (m : Month) : ℚ :=
  let activeCount := db.rentals.countP fun r => r.status == RentalStatus.active
  let paidCount := db.rentals.countP fun r =>
    r.status == RentalStatus.active && hasPaidPayment db r.id m
  if activeCount = 0 then 0 else (paidCount : ℚ) / (activeCount : ℚ)

/-- Number of payments recorded for a given rental and month. -/
def paymentCount (db : DB) (rid : String) (m : Month) : Nat :=
  (db.payments.filter fun p => p.rentalId == rid && p.month == m).length

/- Concrete fixtures used by counterexamples and witnesses. -/

/-- A reference date, 2025-01-01. -/
def day0 : Date := ⟨2025, 1, 1⟩

/-- The month 2025-01. -/
def monthJan : Month := ⟨2025, 1⟩

/-- A tenant caller. -/
def tenant1 : Caller := ⟨"t1", .tenant⟩

/-- A second tenant caller. -/
def tenant2 : Caller := ⟨"t2", .tenant⟩

/-- The landlord owning the fixture properties. -/
def landlord1 : Caller := ⟨"L", .landlord⟩

/-- A ministry caller. -/
def ministry1 : Caller := ⟨"M", .ministry⟩

/-- An available property with no offer window. -/
def prop1 : Property :=
  { id := "p1", ownerId := "L", rent := 100, available := true,
    startDate := none, endDate := none }

/-- A store holding just `prop1`. -/
def dbEmpty : DB := ⟨[], [prop1], [], [], []⟩

/-- Two tenants request the same property, then the landlord approves both
requests one after the other. -/
def chainReq1 : DB × OpOut Rental := requestRental tenant1 "p1" none "r1" day0 dbEmpty

/-- Second request, by the other tenant, on the state after the first. -/
def chainReq2 : DB × OpOut Rental := requestRental tenant2 "p1" none "r2" day0 chainReq1.1

/-- First approval. -/
def chainApp1 : DB × OpOut Rental := approveRental landlord1 "r1" "approve" chainReq2.1

/-- Second approval, after the first has already made the property occupied. -/
def chainApp2 : DB × OpOut Rental := approveRental landlord1 "r2" "approve" chainApp1.1

/-- A pending rental request on `prop1`. -/
def pendR1 : Rental :=
  { id := "r1", tenantId := "t1", landlordId := "L", propertyId := "p1",
    startDate := day0, endDate := some ⟨2026, 1, 1⟩, status := .pending,
    monthlyRent := 100 }

/-- Store with one pending request. -/
def dbPend : DB := { dbEmpty with rentals := [pendR1] }

/-- An open-ended active rental occupying `prop1` (held by another tenant). -/
def blockR : Rental :=
  { id := "rb", tenantId := "t9", landlordId := "L", propertyId := "p1",
    startDate := ⟨2024, 1, 1⟩, endDate := none, status := .active,
    monthlyRent := 100 }

/-- Store where `prop1` is blocked by a live rental yet still flagged
`available = true` (the stale-flag situation of the specification). -/
def dbBlocked : DB := { dbEmpty with rentals := [blockR] }

/-- Property offering the window 2025-03-01 .. 2025-05-01 (a 2-month span). -/
def windowProp : Property :=
  { id := "pw", ownerId := "L", rent := 100, available := true,
    startDate := some ⟨2025, 3, 1⟩, endDate := some ⟨2025, 5, 1⟩ }

/-- Store holding only the windowed property. -/
def dbWindow : DB := ⟨[], [windowProp], [], [], []⟩

/-- A date before the window opens, 2025-02-01. -/
def dayFeb : Date := ⟨2025, 2, 1⟩

/-- An active rental for tenant `t1`. -/
def activeR : Rental :=
  { id := "ra", tenantId := "t1", landlordId := "L", propertyId := "p1",
    startDate := ⟨2024, 6, 1⟩, endDate := some ⟨2026, 6, 1⟩, status := .active,
    monthlyRent := 100 }

/-- Store with one active rental. -/
def dbActive : DB := { dbEmpty with rentals := [activeR] }

/-- A pending termination for `activeR`. -/
def pendTerm : RentalTermination :=
  { id := "tm1", rentalId := "ra", tenantId := "t1", landlordId := "L",
    requestedEndDate := ⟨2025, 4, 1⟩, status := .pending }

/-- `activeR` after its termination request: terminating, end date set. -/
def termR : Rental := { activeR with status := .terminating, endDate := some ⟨2025, 4, 1⟩ }

/-- Store in the terminating state of scenario C. -/
def dbTerm : DB := { dbEmpty with rentals := [termR], terminations := [pendTerm] }

/-- `activeR` while its renewal request is pending. -/
def renewPendR : Rental := { activeR with status := .renewal_pending }

/-- Store with one renewal-pending rental. -/
def dbRenewPending : DB := { dbEmpty with rentals := [renewPendR] }

/-- A paid January payment for rental `ra`. -/
def paidJan : Payment :=
  { id := "pp", rentalId := "ra", amount := 100, month := monthJan, status := .paid }

/-- Store where the only live rental is renewal-pending and it has a paid
payment for the current month. -/
def dbLivePaid : DB := { dbEmpty with rentals := [renewPendR], payments := [paidJan] }

/-- Store with an active rental that already paid January. -/
def dbActivePaid : DB := { dbEmpty with rentals := [activeR], payments := [paidJan] }

/-- A property whose advisory flag is off. -/
def propOff : Property :=
  { id := "p2", ownerId := "L", rent := 100, available := false,
    startDate := none, endDate := none }

/-- Store holding only the flagged-off property. -/
def dbOff : DB := ⟨[], [propOff], [], [], []⟩

/-- The rental record created by an accepted rental request on a property
whose offer window starts at `s` (the shape written by the request route). -/
def requestedRental (caller : Caller) (pid : String) (d : Int) (newId : String)
    (now : Date) (p : Property) (s : Date) : Rental :=
  { id := newId
    tenantId := caller.userId
    landlordId := p.ownerId
    propertyId := pid
    startDate := if now.ltb s then s else now
    endDate := some ((if now.ltb s then s else now).addMonths d)
    status := .pending
    monthlyRent := p.rent }

/-- The termination record created by an accepted termination request
(the shape written by the terminate route). -/
def requestedTermination (caller : Caller) (rid : String) (red : Date)
    (newId : String) (r : Rental) : RentalTermination :=
  { id := newId
    rentalId := rid
    tenantId := caller.userId
    landlordId := r.landlordId
    requestedEndDate := red
    status := .pending }

/- Helper lemmas about the record-store primitives. -/

theorem find?_map_update {α : Type} (idOf : α → String) (l : List α) (i j : String)
    (f : α → α) (hf : ∀ x, idOf (f x) = idOf x) :
    ((l.map fun x => if idOf x == i then f x else x).find? fun x => idOf x == j) =
      ((l.find? fun x => idOf x == j).map fun x => if idOf x == i then f x else x) := by
  induction l with
  | nil => rfl
  | cons a t ih =>
    have hhead : (idOf (if (idOf a == i) = true then f a else a) == j) = (idOf a == j) := by
      by_cases hai : (idOf a == i) = true
      · simp [hai, hf a]
      · simp [hai]
    simp only [List.map_cons, List.find?]
    rw [hhead]
    cases haj : (idOf a == j) with
    | false =>
      simp only [haj]
      exact ih
    | true =>
      simp only [haj]
      rfl

theorem find?_update_self {α : Type} (idOf : α → String) (l : List α) (i : String)
    (f : α → α) (hf : ∀ x, idOf (f x) = idOf x) (r : α)
    (hfind : (l.find? fun x => idOf x == i) = some r) :
    ((l.map fun x => if idOf x == i then f x else x).find? fun x => idOf x == i) =
      some (f r) := by
  rw [find?_map_update idOf l i i f hf, hfind]
  have hr : (idOf r == i) = true := List.find?_some (p := fun x => idOf x == i) hfind
  have hr' : idOf r = i := by simpa using hr
  simp [hr']

theorem isSome_find?_eq_any {α : Type} (p : α → Bool) (l : List α) :
    (l.find? p).isSome = l.any p := by
  induction l with
  | nil => rfl
  | cons a t ih =>
    cases ha : p a with
    | false => simp [List.find?_cons, ha, ih]
    | true => simp [List.find?_cons, ha]

theorem length_filter_map_filter (l : List Rental) (s : Rental → Bool) (q : String → Bool) :
    ((((l.filter s).map fun r => r.id).filter q).length) =
      l.countP fun r => s r && q r.id := by
  induction l with
  | nil => rfl
  | cons a t ih =>
    cases hs : s a with
    | false => simp [List.filter_cons, List.countP_cons, hs, ih]
    | true =>
      cases hq : q a.id with
      | false => simp [List.filter_cons, List.countP_cons, hs, hq, ih]
      | true => simp [List.filter_cons, List.countP_cons, hs, hq, ih]

/- Claim C1 -/

/-- C1 (amended): the Approve Rental operation performs no availability
check at all — whenever the target rental is `pending` and the caller is the
landlord owning its property, approval succeeds and activates the rental,
regardless of any other (live) rentals on the same property.  Consequently
Invariant 1 is not preserved by approving two pending requests in
sequence. -/
theorem C1_approve_ignores_availability
    (caller : Caller) (db : DB) (rid : String) (r : Rental) (p : Property)
    (hrole : caller.role = Role.landlord) (hrid : rid ≠ "")
    (hfind : (db.rentals.find? fun x => x.id == rid) = some r)
    (hstat : r.status = RentalStatus.pending)
    (hprop : (db.properties.find? fun x => x.id == r.propertyId) = some p)
    (hown : p.ownerId = caller.userId) :
    (approveRental caller rid "approve" db).2 =
      OpOut.success { r with status := RentalStatus.active,
                             endDate := some (r.endDate.getD (r.startDate.addYears 1)) } := by
  have hrid' : (rid == "") = false := beq_eq_false_iff_ne.mpr hrid
  cases hED : r.endDate with
  | none => simp [approveRental, hrole, hrid', hfind, hprop, hown, hstat, hED]
  | some e => simp [approveRental, hrole, hrid', hfind, hprop, hown, hstat, hED]

/-- Witness for C1: a concrete pending request is approved. -/
theorem C1_witness :
    (approveRental landlord1 "r1" "approve" dbPend).2 =
      OpOut.success
        { pendR1 with
            status := RentalStatus.active
            endDate := some (pendR1.endDate.getD (pendR1.startDate.addYears 1)) } :=
  C1_approve_ignores_availability landlord1 dbPend "r1" pendR1 prop1
    rfl (by decide) (by decide) (by decide) (by decide) (by decide)

/-- Counterexample to C1 as stated: starting from a store with one available
property, two tenants request it, and the landlord approves both requests one
after the other; every step succeeds, and afterwards the property has two
live rentals, violating Invariant 1. -/
theorem C1_counterexample :
    chainReq1.2.isSuccess = true ∧ chainReq2.2.isSuccess = true ∧
      chainApp1.2.isSuccess = true ∧ chainApp2.2.isSuccess = true ∧
      ¬ singleLiveRental chainApp2.1 "p1" day0 := by
  decide

/- Claim C2 -/

/-- C2 (amended): the availability precondition of Request Rental is the
advisory flag alone.  For an existing property, the request is rejected as
unavailable exactly when `Property.available` is false; when the flag is
true the unavailability rejection can never occur, no matter which live
rentals block the property — the Availability Resolver is not consulted. -/
theorem C2_request_checks_flag_only
    (caller : Caller) (db : DB) (pid : String) (dur : Option Int)
    (newId : String) (now : Date) (p : Property)
    (hrole : caller.role = Role.tenant) (hpid : pid ≠ "")
    (hfind : (db.properties.find? fun x => x.id == pid) = some p) :
    (p.available = false →
      requestRental caller pid dur newId now db =
        (db, OpOut.failure 400 "Property is not available")) ∧
    (p.available = true →
      (requestRental caller pid dur newId now db).2 ≠
        OpOut.failure 400 "Property is not available") := by
  have hpid' : (pid == "") = false := beq_eq_false_iff_ne.mpr hpid
  constructor
  · intro hav
    simp [requestRental, hrole, hpid', hfind, hav]
  · intro hav
    simp only [requestRental, hrole, hpid', hfind, hav]
    repeat' split
    all_goals simp_all

/-- Witness for C2: a flagged-off property is rejected as unavailable, and a
flagged-on property is never rejected as unavailable (here even though a
live rental blocks it). -/
theorem C2_witness :
    (requestRental tenant1 "p2" none "rx" day0 dbOff =
      (dbOff, OpOut.failure 400 "Property is not available")) ∧
    ((requestRental tenant1 "p1" none "rx" day0 dbBlocked).2 ≠
      OpOut.failure 400 "Property is not available") :=
  ⟨(C2_request_checks_flag_only tenant1 dbOff "p2" none "rx" day0 propOff
      rfl (by decide) (by decide)).1 rfl,
   (C2_request_checks_flag_only tenant1 dbBlocked "p1" none "rx" day0 prop1
      rfl (by decide) (by decide)).2 rfl⟩

/-- Counterexample to C2 as stated: the property is blocked by a live
open-ended rental of another tenant, yet because its advisory flag is still
true the rental request succeeds instead of being rejected. -/
theorem C2_counterexample :
    (liveRentalsOn dbBlocked "p1" day0).length = 1 ∧
    prop1.available = true ∧
    (requestRental tenant1 "p1" none "rx" day0 dbBlocked).2.isSuccess = true := by
  decide

/- Claim C3 -/

/-- C3 (amended): for a property with an offer window, a requested nonzero
duration below the window's month-span or above 24 months is rejected, and
an accepted nonzero duration `d` creates a pending rental whose end date is
the start date plus `d` whole months.  (A requested duration of `0` is
falsy in JavaScript and silently falls back to the window's span — see the
counterexample.) -/
theorem C3_window_duration
    (caller : Caller) (db : DB) (pid : String) (d : Int) (newId : String)
    (now : Date) (p : Property) (s e : Date)
    (hrole : caller.role = Role.tenant) (hpid : pid ≠ "")
    (hfind : (db.properties.find? fun x => x.id == pid) = some p)
    (hav : p.available = true)
    (hs : p.startDate = some s) (he : p.endDate = some e)
    (hdup : (db.rentals.find? fun r =>
        r.tenantId == caller.userId && r.propertyId == pid &&
          r.status == RentalStatus.pending) = none)
    (hcap : (db.rentals.filter fun r =>
        r.tenantId == caller.userId &&
          (r.status == RentalStatus.active || r.status == RentalStatus.pending ||
           r.status == RentalStatus.renewal_pending ||
           r.status == RentalStatus.terminating)).length < 20)
    (hd : d ≠ 0) :
    (d < monthsDiff s e →
      requestRental caller pid (some d) newId now db =
        (db, OpOut.failure 400 "Rental duration cannot be less than the landlord default")) ∧
    (monthsDiff s e ≤ d → 24 < d →
      requestRental caller pid (some d) newId now db =
        (db, OpOut.failure 400 "Rental duration cannot exceed 24 months (2 years)")) ∧
    (monthsDiff s e ≤ d → d ≤ 24 →
      requestRental caller pid (some d) newId now db =
        ({ db with rentals := db.rentals ++ [requestedRental caller pid d newId now p s] },
         OpOut.success (requestedRental caller pid d newId now p s))) := by
  have hpid' : (pid == "") = false := beq_eq_false_iff_ne.mpr hpid
  have hd' : (d == (0 : Int)) = false := beq_eq_false_iff_ne.mpr hd
  have hcap' : ¬ (20 ≤ (db.rentals.filter fun r =>
      r.tenantId == caller.userId &&
        (r.status == RentalStatus.active || r.status == RentalStatus.pending ||
         r.status == RentalStatus.renewal_pending ||
         r.status == RentalStatus.terminating)).length) := not_le.mpr hcap
  refine ⟨fun hlt => ?_, fun hge hgt => ?_, fun hge hle => ?_⟩
  · simp [requestRental, hrole, hpid', hfind, hav, hs, he, hdup, hcap', hd', hlt]
  · have h1 : ¬ (d < monthsDiff s e) := not_lt.mpr hge
    simp [requestRental, hrole, hpid', hfind, hav, hs, he, hdup, hcap', hd', h1, hgt]
  · have h1 : ¬ (d < monthsDiff s e) := not_lt.mpr hge
    have h2 : ¬ (24 < d) := not_lt.mpr hle
    simp [requestRental, hrole, hpid', hfind, hav, hs, he, hdup, hcap', hd', h1, h2,
      requestedRental]

/-- Witness for C3: on the 2-month window 2025-03-01..2025-05-01, a request
of 1 month is rejected and a request of 2 months is accepted with end date
2025-05-01 (start + 2 months). -/
theorem C3_witness :
    (requestRental tenant1 "pw" (some 1) "rx" dayFeb dbWindow =
      (dbWindow, OpOut.failure 400 "Rental duration cannot be less than the landlord default")) ∧
    (requestRental tenant1 "pw" (some 2) "rx" dayFeb dbWindow =
      ({ dbWindow with rentals := dbWindow.rentals ++
          [requestedRental tenant1 "pw" 2 "rx" dayFeb windowProp ⟨2025, 3, 1⟩] },
       OpOut.success (requestedRental tenant1 "pw" 2 "rx" dayFeb windowProp ⟨2025, 3, 1⟩))) :=
  ⟨(C3_window_duration tenant1 dbWindow "pw" 1 "rx" dayFeb windowProp ⟨2025, 3, 1⟩ ⟨2025, 5, 1⟩
      rfl (by decide) (by decide) rfl rfl rfl rfl (by decide) (by decide)).1 (by decide),
   (C3_window_duration tenant1 dbWindow "pw" 2 "rx" dayFeb windowProp ⟨2025, 3, 1⟩ ⟨2025, 5, 1⟩
      rfl (by decide) (by decide) rfl rfl rfl rfl (by decide) (by decide)).2.2 (by decide) (by decide)⟩

/-- Counterexample to C3 as stated: on the same 2-month window, a requested
duration of `0` is strictly less than the span yet the request is accepted
(the JavaScript `||` default turns `0` into the window span), producing a
pending rental ending 2025-05-01. -/
theorem C3_counterexample :
    monthsDiff ⟨2025, 3, 1⟩ ⟨2025, 5, 1⟩ = 2 ∧ (0 : Int) < 2 ∧
    (requestRental tenant1 "pw" (some 0) "rx" dayFeb dbWindow).2 =
      OpOut.success
        { id := "rx", tenantId := "t1", landlordId := "L", propertyId := "pw",
          startDate := ⟨2025, 3, 1⟩, endDate := some ⟨2025, 5, 1⟩,
          status := RentalStatus.pending, monthlyRent := 100 } := by
  decide

/- Claim C4 -/

/-- C4 (confirmed): a termination request on an active rental owned by the
caller is rejected when the requested end date is earlier than two months
from now, and an accepted request appends a pending termination record while
immediately setting the rental's status to `terminating` and overwriting its
end date with the requested date, before any landlord decision. -/
theorem C4_termination_notice_and_effects
    (caller : Caller) (db : DB) (rid : String) (red : Date) (newId : String)
    (now : Date) (nowTod : Nat) (r : Rental)
    (hrole : caller.role = Role.tenant) (hrid : rid ≠ "")
    (hfind : (db.rentals.find? fun x => x.id == rid) = some r)
    (hten : r.tenantId = caller.userId)
    (hstat : r.status = RentalStatus.active)
    (hdup : (db.terminations.find? fun t =>
        t.rentalId == rid && t.status == ReqStatus.pending) = none) :
    (red.ltb (now.addMonths 2) = true →
      requestTermination caller rid red newId now nowTod db =
        (db, OpOut.failure 400 "Termination date must be at least 2 months from today")) ∧
    (red.ltb (now.addMonths 2) = false → (red = now.addMonths 2 → nowTod = 0) →
      ((requestTermination caller rid red newId now nowTod db).2 =
          OpOut.success (requestedTermination caller rid red newId r)) ∧
      ((requestTermination caller rid red newId now nowTod db).1.terminations =
          db.terminations ++ [requestedTermination caller rid red newId r]) ∧
      (((requestTermination caller rid red newId now nowTod db).1.rentals.find?
          fun x => x.id == rid) =
        some { r with status := RentalStatus.terminating, endDate := some red })) := by
  have hrid' : (rid == "") = false := beq_eq_false_iff_ne.mpr hrid
  constructor
  · intro hlt
    simp [requestTermination, hrole, hrid', hfind, hten, hstat, hdup, hlt]
  · intro hlt hbound
    have hb : (red == now.addMonths 2 && decide (0 < nowTod)) = false := by
      by_cases hr : red = now.addMonths 2
      · simp [hr, hbound hr]
      · simp [hr]
    refine ⟨?_, ?_, ?_⟩
    · simp [requestTermination, hrole, hrid', hfind, hten, hstat, hdup, hlt, hb,
        requestedTermination]
    · simp [requestTermination, hrole, hrid', hfind, hten, hstat, hdup, hlt, hb,
        requestedTermination]
    · have hten' : (r.tenantId != caller.userId) = false := by simp [hten]
      have hstat' : (r.status != RentalStatus.active) = false := by simp [hstat]
      simp only [requestTermination, hrole, hrid', hfind, hten', hstat', hdup, hlt, hb]
      simp only [bne_self_eq_false, Bool.false_eq_true, if_false, Option.isSome_none,
        Bool.or_false, Bool.false_or]
      exact find?_update_self (fun x : Rental => x.id) db.rentals rid
        (fun x => { x with status := RentalStatus.terminating, endDate := some red })
        (fun x => rfl) r hfind

/-- Witness for C4 (scenario B): on 2025-01-01, requesting termination of an
active rental for 2025-02-15 (under two months away) is rejected, while
requesting it for 2025-04-01 succeeds, records a pending termination, and
immediately marks the rental terminating with the new end date. -/
theorem C4_witness :
    (requestTermination tenant1 "ra" ⟨2025, 2, 15⟩ "tm1" day0 5 dbActive =
      (dbActive, OpOut.failure 400 "Termination date must be at least 2 months from today")) ∧
    ((requestTermination tenant1 "ra" ⟨2025, 4, 1⟩ "tm1" day0 5 dbActive).2 =
        OpOut.success (requestedTermination tenant1 "ra" ⟨2025, 4, 1⟩ "tm1" activeR)) ∧
    ((requestTermination tenant1 "ra" ⟨2025, 4, 1⟩ "tm1" day0 5 dbActive).1.terminations =
        dbActive.terminations ++ [requestedTermination tenant1 "ra" ⟨2025, 4, 1⟩ "tm1" activeR]) ∧
    (((requestTermination tenant1 "ra" ⟨2025, 4, 1⟩ "tm1" day0 5 dbActive).1.rentals.find?
        fun x => x.id == "ra") =
      some { activeR with status := RentalStatus.terminating, endDate := some ⟨2025, 4, 1⟩ }) :=
  ⟨(C4_termination_notice_and_effects tenant1 dbActive "ra" ⟨2025, 2, 15⟩ "tm1" day0 5 activeR
      rfl (by decide) (by decide) rfl rfl (by decide)).1 (by decide),
   (C4_termination_notice_and_effects tenant1 dbActive "ra" ⟨2025, 4, 1⟩ "tm1" day0 5 activeR
      rfl (by decide) (by decide) rfl rfl (by decide)).2 (by decide) (by decide)⟩

/- Claim C5 -/

/-- C5 (confirmed): deciding a pending termination (whose cached landlordId
is present and consistent with the property owner, expressed by `hcond`) has
exactly the claimed effects.  Approve: the termination becomes approved, the
rental becomes completed with its end date equal to the requested
termination date, and the properties collection is untouched (the property
is not re-marked available).  Reject: the termination becomes rejected and
the rental reverts to active with its provisional end date left in place
(the record update keeps `endDate` as it was). -/
theorem C5_termination_decision_effects
    (caller : Caller) (db : DB) (tid : String)
    (t : RentalTermination) (r : Rental) (p : Property)
    (hrole : caller.role = Role.landlord) (htid : tid ≠ "")
    (hfindt : (db.terminations.find? fun x => x.id == tid) = some t)
    (hfindr : (db.rentals.find? fun x => x.id == t.rentalId) = some r)
    (hfindp : (db.properties.find? fun x => x.id == r.propertyId) = some p)
    (hown : p.ownerId = caller.userId)
    (hcond : (t.landlordId == "" || t.landlordId != p.ownerId) = false)
    (hstat : t.status = ReqStatus.pending) :
    ((approveTermination caller tid true db).2 =
        OpOut.success { t with status := ReqStatus.approved }) ∧
    ((approveTermination caller tid true db).1.properties = db.properties) ∧
    (((approveTermination caller tid true db).1.terminations.find? fun x => x.id == tid) =
        some { t with status := ReqStatus.approved }) ∧
    (((approveTermination caller tid true db).1.rentals.find? fun x => x.id == t.rentalId) =
        some { r with status := RentalStatus.completed,
                      endDate := some t.requestedEndDate }) ∧
    ((approveTermination caller tid false db).2 =
        OpOut.success { t with status := ReqStatus.rejected }) ∧
    ((approveTermination caller tid false db).1.properties = db.properties) ∧
    (((approveTermination caller tid false db).1.terminations.find? fun x => x.id == tid) =
        some { t with status := ReqStatus.rejected }) ∧
    (((approveTermination caller tid false db).1.rentals.find? fun x => x.id == t.rentalId) =
        some { r with status := RentalStatus.active }) := by
  have htid' : (tid == "") = false := beq_eq_false_iff_ne.mpr htid
  have hown' : (p.ownerId != caller.userId) = false := by simp [hown]
  have hstat' : (t.status != ReqStatus.pending) = false := by simp [hstat]
  have hfHeal : ∀ x : RentalTermination,
      ((if x.landlordId == "" || x.landlordId != p.ownerId then
          { x with landlordId := p.ownerId } else x) : RentalTermination).id = x.id := by
    intro x
    by_cases hx : (x.landlordId == "" || x.landlordId != p.ownerId) = true
    · simp [hx]
    · simp [hx]
  have hheal := find?_update_self (fun x : RentalTermination => x.id) db.terminations tid
      (fun x => if x.landlordId == "" || x.landlordId != p.ownerId then
          { x with landlordId := p.ownerId } else x) hfHeal t hfindt
  simp only [hcond, Bool.false_eq_true, if_false] at hheal
  have happrovedT := find?_update_self (fun x : RentalTermination => x.id)
      (db.terminations.map fun x => if x.id == tid then
          (if x.landlordId == "" || x.landlordId != p.ownerId then
            { x with landlordId := p.ownerId } else x)
        else x) tid
      (fun x => { x with status := ReqStatus.approved }) (fun x => rfl) t hheal
  have hrejectedT := find?_update_self (fun x : RentalTermination => x.id)
      (db.terminations.map fun x => if x.id == tid then
          (if x.landlordId == "" || x.landlordId != p.ownerId then
            { x with landlordId := p.ownerId } else x)
        else x) tid
      (fun x => { x with status := ReqStatus.rejected }) (fun x => rfl) t hheal
  have hcompletedR := find?_update_self (fun x : Rental => x.id) db.rentals t.rentalId
      (fun x => { x with status := RentalStatus.completed,
                         endDate := some t.requestedEndDate }) (fun x => rfl) r hfindr
  have hactiveR := find?_update_self (fun x : Rental => x.id) db.rentals t.rentalId
      (fun x => { x with status := RentalStatus.active }) (fun x => rfl) r hfindr
  refine ⟨?_, ?_, ?_, ?_, ?_, ?_, ?_, ?_⟩
  · simp [approveTermination, hrole, htid', hfindt, hfindr, hfindp, hown', hstat', hcond]
  · simp [approveTermination, hrole, htid', hfindt, hfindr, hfindp, hown', hstat', hcond]
  · simp only [approveTermination, hrole, htid', hfindt, hfindr, hfindp, hown', hstat', hcond]
    simp only [bne_self_eq_false, Bool.false_eq_true, if_false, if_true]
    exact happrovedT
  · simp only [approveTermination, hrole, htid', hfindt, hfindr, hfindp, hown', hstat', hcond]
    simp only [bne_self_eq_false, Bool.false_eq_true, if_false, if_true]
    exact hcompletedR
  · simp [approveTermination, hrole, htid', hfindt, hfindr, hfindp, hown', hstat', hcond]
  · simp [approveTermination, hrole, htid', hfindt, hfindr, hfindp, hown', hstat', hcond]
  · simp only [approveTermination, hrole, htid', hfindt, hfindr, hfindp, hown', hstat', hcond]
    simp only [bne_self_eq_false, Bool.false_eq_true, if_false, if_true]
    exact hrejectedT
  · simp only [approveTermination, hrole, htid', hfindt, hfindr, hfindp, hown', hstat', hcond]
    simp only [bne_self_eq_false, Bool.false_eq_true, if_false, if_true]
    exact hactiveR

/-- Witness for C5: scenario C on concrete data — approving the pending
termination completes the rental at the requested date without touching the
property; rejecting it reverts the rental to active with the provisional
end date still in place. -/
theorem C5_witness :
    ((approveTermination landlord1 "tm1" true dbTerm).2 =
        OpOut.success { pendTerm with status := ReqStatus.approved }) ∧
    ((approveTermination landlord1 "tm1" true dbTerm).1.properties = dbTerm.properties) ∧
    (((approveTermination landlord1 "tm1" true dbTerm).1.rentals.find? fun x => x.id == "ra") =
        some { termR with status := RentalStatus.completed, endDate := some ⟨2025, 4, 1⟩ }) ∧
    ((approveTermination landlord1 "tm1" false dbTerm).2 =
        OpOut.success { pendTerm with status := ReqStatus.rejected }) ∧
    (((approveTermination landlord1 "tm1" false dbTerm).1.rentals.find? fun x => x.id == "ra") =
        some { termR with status := RentalStatus.active }) := by
  have h := C5_termination_decision_effects landlord1 dbTerm "tm1" pendTerm termR prop1
    rfl (by decide) (by decide) (by decide) (by decide) rfl (by decide) rfl
  exact ⟨h.1, h.2.1, h.2.2.2.1, h.2.2.2.2.1, h.2.2.2.2.2.2.2⟩

/- Claim C6 -/

theorem approveRental_not_pending
    (caller : Caller) (db : DB) (rid : String) (action : String)
    (r : Rental) (p : Property)
    (hrole : caller.role = Role.landlord) (hrid : rid ≠ "")
    (haction : action = "approve" ∨ action = "decline")
    (hfind : (db.rentals.find? fun x => x.id == rid) = some r)
    (hprop : (db.properties.find? fun x => x.id == r.propertyId) = some p)
    (hown : p.ownerId = caller.userId)
    (hnp : r.status ≠ RentalStatus.pending) :
    approveRental caller rid action db =
      (db, OpOut.failure 400 "Rental is not pending") := by
  have hrid' : (rid == "") = false := beq_eq_false_iff_ne.mpr hrid
  have hown' : (p.ownerId != caller.userId) = false := by simp [hown]
  have hnp' : (r.status != RentalStatus.pending) = true := by simpa using hnp
  rcases haction with ha | ha
  · subst ha
    simp [approveRental, hrole, hrid', hfind, hprop, hown', hnp']
  · subst ha
    simp [approveRental, hrole, hrid', hfind, hprop, hown', hnp']

/-- C6 (confirmed): approving or declining a rental that is no longer
`pending` fails with the state-conflict error and returns the store
unchanged; in particular, after a successful approval a second approval of
the same rental fails with that error and leaves the approved state
unchanged, rather than silently succeeding. -/
theorem C6_second_decision_fails
    (caller : Caller) (db : DB) (rid : String) (action : String)
    (r : Rental) (p : Property)
    (hrole : caller.role = Role.landlord) (hrid : rid ≠ "")
    (haction : action = "approve" ∨ action = "decline")
    (hfind : (db.rentals.find? fun x => x.id == rid) = some r)
    (hprop : (db.properties.find? fun x => x.id == r.propertyId) = some p)
    (hown : p.ownerId = caller.userId) :
    (r.status ≠ RentalStatus.pending →
      approveRental caller rid action db =
        (db, OpOut.failure 400 "Rental is not pending")) ∧
    (r.status = RentalStatus.pending →
      approveRental caller rid "approve" ((approveRental caller rid "approve" db).1) =
        ((approveRental caller rid "approve" db).1,
         OpOut.failure 400 "Rental is not pending")) := by
  have hrid' : (rid == "") = false := beq_eq_false_iff_ne.mpr hrid
  have hown' : (p.ownerId != caller.userId) = false := by simp [hown]
  constructor
  · intro hnp
    exact approveRental_not_pending caller db rid action r p
      hrole hrid haction hfind hprop hown hnp
  · intro hpend
    have hpend' : (r.status != RentalStatus.pending) = false := by simp [hpend]
    cases hED : r.endDate with
    | none =>
      have hfr := find?_update_self (fun x : Rental => x.id) db.rentals rid
        (fun x => { x with status := RentalStatus.active,
                           endDate := some (r.startDate.addYears 1) })
        (fun x => rfl) r hfind
      have hfp : ((db.properties.map fun x =>
          if x.id == p.id then { x with available := false } else x).find?
            fun x => x.id == r.propertyId) = some { p with available := false } := by
        rw [find?_map_update (fun x : Property => x.id) db.properties p.id r.propertyId
          (fun x => { x with available := false }) (fun x => rfl), hprop]
        simp
      have hfst : (approveRental caller rid "approve" db).1 =
          { db with
              rentals := db.rentals.map fun x =>
                if x.id == rid then
                  { x with status := RentalStatus.active,
                           endDate := some (r.startDate.addYears 1) }
                else x
              properties := db.properties.map fun x =>
                if x.id == p.id then { x with available := false } else x } := by
        simp [approveRental, hrole, hrid', hfind, hprop, hown', hpend', hED]
      rw [hfst]
      exact approveRental_not_pending caller _ rid "approve"
        { r with status := RentalStatus.active,
                 endDate := some (r.startDate.addYears 1) }
        { p with available := false }
        hrole hrid (Or.inl rfl) hfr hfp hown (fun h => RentalStatus.noConfusion h)
    | some e =>
      have hfr := find?_update_self (fun x : Rental => x.id) db.rentals rid
        (fun x => { x with status := RentalStatus.active, endDate := some e })
        (fun x => rfl) r hfind
      have hfp : ((db.properties.map fun x =>
          if x.id == p.id then { x with available := false } else x).find?
            fun x => x.id == r.propertyId) = some { p with available := false } := by
        rw [find?_map_update (fun x : Property => x.id) db.properties p.id r.propertyId
          (fun x => { x with available := false }) (fun x => rfl), hprop]
        simp
      have hfst : (approveRental caller rid "approve" db).1 =
          { db with
              rentals := db.rentals.map fun x =>
                if x.id == rid then
                  { x with status := RentalStatus.active, endDate := some e }
                else x
              properties := db.properties.map fun x =>
                if x.id == p.id then { x with available := false } else x } := by
        simp [approveRental, hrole, hrid', hfind, hprop, hown', hpend', hED]
      rw [hfst]
      exact approveRental_not_pending caller _ rid "approve"
        { r with status := RentalStatus.active, endDate := some e }
        { p with available := false }
        hrole hrid (Or.inl rfl) hfr hfp hown (fun h => RentalStatus.noConfusion h)

/-- Witness for C6: declining an already-cancelled rental fails, and a
second approval of a freshly approved rental fails with the state-conflict
error, leaving the store unchanged. -/
theorem C6_witness :
    (approveRental landlord1 "ra" "approve" dbActive =
      (dbActive, OpOut.failure 400 "Rental is not pending")) ∧
    (approveRental landlord1 "r1" "approve" ((approveRental landlord1 "r1" "approve" dbPend).1) =
      ((approveRental landlord1 "r1" "approve" dbPend).1,
       OpOut.failure 400 "Rental is not pending")) :=
  ⟨(C6_second_decision_fails landlord1 dbActive "ra" "approve" activeR prop1
      rfl (by decide) (Or.inl rfl) (by decide) (by decide) rfl).1 (by decide),
   (C6_second_decision_fails landlord1 dbPend "r1" "approve" pendR1 prop1
      rfl (by decide) (Or.inl rfl) (by decide) (by decide) rfl).2 rfl⟩

/- Claim C7 -/

/-- C7 (confirmed): with all other renewal preconditions satisfied (active
rental owned by the calling tenant, no pending renewal), a renewal request
is rejected for any duration outside [1, 24] — `0` trips the JavaScript
required-field check and `25` the range check — and accepted for any
duration within [1, 24], in particular `1` and `24`. -/
theorem C7_renewal_duration_bounds
    (caller : Caller) (db : DB) (rid : String) (d : Int) (newId : String)
    (r : Rental)
    (hrole : caller.role = Role.tenant) (hrid : rid ≠ "")
    (hfind : (db.rentals.find? fun x => x.id == rid) = some r)
    (hten : r.tenantId = caller.userId)
    (hstat : r.status = RentalStatus.active)
    (hdup : (db.renewals.find? fun x =>
        x.rentalId == rid && x.status == ReqStatus.pending) = none)
    (hll : r.landlordId ≠ "") :
    (d < 1 ∨ 24 < d →
      (requestRenewal caller rid d newId db).2.isSuccess = false) ∧
    (1 ≤ d → d ≤ 24 →
      (requestRenewal caller rid d newId db).2 =
        OpOut.success
          { id := newId, rentalId := rid, tenantId := caller.userId,
            landlordId := r.landlordId, renewalDuration := d,
            requestedStartDate := (r.endDate.getD r.startDate).nextDay,
            status := ReqStatus.pending }) := by
  have hrid' : (rid == "") = false := beq_eq_false_iff_ne.mpr hrid
  have hll' : (r.landlordId == "") = false := beq_eq_false_iff_ne.mpr hll
  constructor
  · intro hout
    by_cases hd0 : d = 0
    · simp [requestRenewal, hrole, hd0, OpOut.isSuccess]
    · have hd0' : (d == (0 : Int)) = false := beq_eq_false_iff_ne.mpr hd0
      have hrange : (d < 1 ∨ 24 < d) := hout
      rcases hrange with h | h
      · simp [requestRenewal, hrole, hrid', hd0', h, OpOut.isSuccess]
      · have h1 : ¬ (d < 1) := by omega
        simp [requestRenewal, hrole, hrid', hd0', h1, h, OpOut.isSuccess]
  · intro h1 h24
    have hd0' : (d == (0 : Int)) = false := beq_eq_false_iff_ne.mpr (by omega)
    have hlt : ¬ (d < 1) := by omega
    have hgt : ¬ (24 < d) := by omega
    cases hE : r.endDate with
    | none =>
      simp [requestRenewal, hrole, hrid', hd0', hlt, hgt, hfind, hten, hstat, hdup,
        hll', hE]
    | some e =>
      simp [requestRenewal, hrole, hrid', hd0', hlt, hgt, hfind, hten, hstat, hdup,
        hll', hE]

/-- Witness for C7: on a concrete active rental, durations 0 and 25 are
rejected while 1 and 24 are accepted. -/
theorem C7_witness :
    ((requestRenewal tenant1 "ra" 0 "rn1" dbActive).2.isSuccess = false) ∧
    ((requestRenewal tenant1 "ra" 25 "rn1" dbActive).2.isSuccess = false) ∧
    ((requestRenewal tenant1 "ra" 1 "rn1" dbActive).2 =
      OpOut.success
        { id := "rn1", rentalId := "ra", tenantId := tenant1.userId,
          landlordId := activeR.landlordId, renewalDuration := 1,
          requestedStartDate := (activeR.endDate.getD activeR.startDate).nextDay,
          status := ReqStatus.pending }) ∧
    ((requestRenewal tenant1 "ra" 24 "rn1" dbActive).2 =
      OpOut.success
        { id := "rn1", rentalId := "ra", tenantId := tenant1.userId,
          landlordId := activeR.landlordId, renewalDuration := 24,
          requestedStartDate := (activeR.endDate.getD activeR.startDate).nextDay,
          status := ReqStatus.pending }) :=
  ⟨(C7_renewal_duration_bounds tenant1 dbActive "ra" 0 "rn1" activeR
      rfl (by decide) (by decide) rfl rfl rfl (by decide)).1 (by omega),
   (C7_renewal_duration_bounds tenant1 dbActive "ra" 25 "rn1" activeR
      rfl (by decide) (by decide) rfl rfl rfl (by decide)).1 (by omega),
   (C7_renewal_duration_bounds tenant1 dbActive "ra" 1 "rn1" activeR
      rfl (by decide) (by decide) rfl rfl rfl (by decide)).2 (by omega) (by omega),
   (C7_renewal_duration_bounds tenant1 dbActive "ra" 24 "rn1" activeR
      rfl (by decide) (by decide) rfl rfl rfl (by decide)).2 (by omega) (by omega)⟩

/- Claim C8 -/

theorem createPayment_cases (caller : Caller) (rid : String) (m : Month)
    (amt : Int) (newId : String) (db : DB) :
    ((createPayment caller rid m amt newId db).1 = db ∧
      (createPayment caller rid m amt newId db).2.isSuccess = false) ∨
    (∃ r, (db.rentals.find? fun x => x.id == rid) = some r ∧
      r.status = RentalStatus.active ∧
      amt = r.monthlyRent ∧
      (db.payments.find? fun p => p.rentalId == rid && p.month == m) = none ∧
      createPayment caller rid m amt newId db =
        ({ db with payments := db.payments ++
            [{ id := newId, rentalId := rid, amount := amt, month := m,
               status := PayStatus.paid }] },
         OpOut.success
          { id := newId, rentalId := rid, amount := amt, month := m,
            status := PayStatus.paid })) := by
  simp only [createPayment]
  split
  · exact Or.inl ⟨rfl, rfl⟩
  split
  · exact Or.inl ⟨rfl, rfl⟩
  split
  · exact Or.inl ⟨rfl, rfl⟩
  split
  · exact Or.inl ⟨rfl, rfl⟩
  next r hr =>
    split
    · exact Or.inl ⟨rfl, rfl⟩
    split
    · exact Or.inl ⟨rfl, rfl⟩
    split
    · exact Or.inl ⟨rfl, rfl⟩
    split
    · exact Or.inl ⟨rfl, rfl⟩
    next h1 h2 h3 h4 =>
      refine Or.inr ⟨r, hr, ?_, ?_, ?_, rfl⟩
      · simpa using h2
      · simpa using h4
      · exact Option.not_isSome_iff_eq_none.mp (by simpa using h3)

/-- C8 (confirmed): at most one payment ever exists per (rental, month)
pair.  If a payment for the pair already exists, Create Payment leaves the
store unchanged and fails; every successful call appends exactly one payment
(for the requested pair); and the per-pair at-most-one invariant is
preserved by the operation. -/
theorem C8_payment_uniqueness (caller : Caller) (rid : String) (m : Month)
    (amt : Int) (newId : String) (db : DB) :
    ((db.payments.find? fun p => p.rentalId == rid && p.month == m).isSome = true →
      (createPayment caller rid m amt newId db).1 = db ∧
      (createPayment caller rid m amt newId db).2.isSuccess = false) ∧
    (∀ pay, (createPayment caller rid m amt newId db).2 = OpOut.success pay →
      (createPayment caller rid m amt newId db).1.payments = db.payments ++ [pay] ∧
      pay.rentalId = rid ∧ pay.month = m) ∧
    (∀ rid2 m2, paymentCount db rid2 m2 ≤ 1 →
      paymentCount (createPayment caller rid m amt newId db).1 rid2 m2 ≤ 1) := by
  rcases createPayment_cases caller rid m amt newId db with
    ⟨h1, h2⟩ | ⟨r, hfindr, hstat, hamt, hdup, heq⟩
  · refine ⟨fun _ => ⟨h1, h2⟩, ?_, ?_⟩
    · intro pay hs
      rw [hs] at h2
      simp [OpOut.isSuccess] at h2
    · intro rid2 m2 hle
      rw [h1]
      exact hle
  · refine ⟨?_, ?_, ?_⟩
    · intro hdupSome
      rw [hdup] at hdupSome
      simp at hdupSome
    · intro pay hs
      rw [heq] at hs ⊢
      have hpay := (OpOut.success.injEq _ _).mp hs.symm
      subst hpay
      exact ⟨rfl, rfl, rfl⟩
    · intro rid2 m2 hle
      rw [heq]
      simp only [paymentCount, List.filter_append, List.length_append,
        List.filter_cons, List.filter_nil]
      by_cases hmatch : ((rid == rid2) && (m == m2)) = true
      · have hr2 : rid = rid2 := by
          have h := (Bool.and_eq_true _ _).mp hmatch
          simpa using h.1
        have hm2 : m = m2 := by
          have h := (Bool.and_eq_true _ _).mp hmatch
          simpa using h.2
        have hnil : (db.payments.filter fun p => p.rentalId == rid2 && p.month == m2) = [] := by
          rw [List.filter_eq_nil_iff]
          intro a ha
          have hnone := List.find?_eq_none.mp hdup a ha
          rw [← hr2, ← hm2]
          simpa using hnone
        rw [hnil]
        simp [hmatch]
      · have hmatch' : ((rid == rid2) && (m == m2)) = false :=
          Bool.eq_false_iff.mpr (fun hc => hmatch hc)
        rw [hmatch']
        simpa using hle

/-- Witness for C8: a duplicate January payment for rental `ra` is rejected
without changing the store, and a fresh payment is appended exactly once. -/
theorem C8_witness :
    ((createPayment tenant1 "ra" monthJan 100 "pay2" dbActivePaid).1 = dbActivePaid ∧
      (createPayment tenant1 "ra" monthJan 100 "pay2" dbActivePaid).2.isSuccess = false) ∧
    ((createPayment tenant1 "ra" monthJan 100 "pay1" dbActive).1.payments =
      dbActive.payments ++
        [{ id := "pay1", rentalId := "ra", amount := 100, month := monthJan,
           status := PayStatus.paid }]) ∧
    (paymentCount (createPayment tenant1 "ra" monthJan 100 "pay1" dbActive).1
        "ra" monthJan ≤ 1) :=
  ⟨(C8_payment_uniqueness tenant1 "ra" monthJan 100 "pay2" dbActivePaid).1 (by decide),
   ((C8_payment_uniqueness tenant1 "ra" monthJan 100 "pay1" dbActive).2.1
      { id := "pay1", rentalId := "ra", amount := 100, month := monthJan,
        status := PayStatus.paid } (by decide)).1,
   (C8_payment_uniqueness tenant1 "ra" monthJan 100 "pay1" dbActive).2.2
      "ra" monthJan (by decide)⟩

/- Claim C9 -/

theorem compliant_length_eq (db : DB) (m : Month) :
    ((((db.rentals.filter fun r => r.status == RentalStatus.active).map
        fun r => r.id).filter fun rid =>
          (db.payments.find? fun p =>
            p.rentalId == rid && p.month == m && p.status == PayStatus.paid).isSome).length) =
      db.rentals.countP fun r =>
        (r.status == RentalStatus.active) && hasPaidPayment db r.id m := by
  rw [length_filter_map_filter]
  refine List.countP_congr ?_
  intro r _
  constructor
  · intro h
    rw [Bool.and_eq_true] at h ⊢
    exact ⟨h.1, by rw [hasPaidPayment, ← isSome_find?_eq_any]; exact h.2⟩
  · intro h
    rw [Bool.and_eq_true] at h ⊢
    refine ⟨h.1, ?_⟩
    have := h.2
    rw [hasPaidPayment, ← isSome_find?_eq_any] at this
    exact this

/-- C9 (amended): the ministry compliance rate counts only rentals whose
status is exactly `active` — `renewal_pending` and `terminating` rentals
(and end dates) are ignored — and is the percentage (not the fraction) of
those with a `paid` payment for the current month, rounded to two decimals;
the dashboard read returns the record store unchanged. -/
theorem C9_compliance_uses_active_only
    (caller : Caller) (db : DB) (m : Month)
    (hrole : caller.role = Role.ministry) :
    ministryDashboardGET caller db m =
      (db, OpOut.success ((jsRound (10000 * activeComplianceFraction db m) : ℚ) / 100)) := by
  have hrole' : (caller.role != Role.ministry) = false := by simp [hrole]
  have hval : ministryComplianceRate db m =
      (jsRound (10000 * activeComplianceFraction db m) : ℚ) / 100 := by
    rw [ministryComplianceRate, activeComplianceFraction]
    rw [compliant_length_eq, ← List.countP_eq_length_filter]
    rcases Nat.eq_zero_or_pos
        (db.rentals.countP fun r => r.status == RentalStatus.active) with hA | hA
    · simp [hA]
    · have hA' : (db.rentals.countP fun r => r.status == RentalStatus.active) ≠ 0 :=
        Nat.pos_iff_ne_zero.mp hA
      simp only [hA, if_true, hA', if_false]
      congr 1
      ring_nf
  rw [ministryDashboardGET, hrole']
  simp [hval]

/-- Witness for C9: the amended equation at a concrete store whose only
rental is renewal-pending. -/
theorem C9_witness :
    ministryDashboardGET ministry1 dbLivePaid monthJan =
      (dbLivePaid,
       OpOut.success ((jsRound (10000 * activeComplianceFraction dbLivePaid monthJan) : ℚ) / 100)) :=
  C9_compliance_uses_active_only ministry1 dbLivePaid monthJan rfl

/-- Counterexample to C9 as stated: in a store whose only rental is live
(`renewal_pending`) and has a `paid` payment for the current month, the
fraction of live rentals with a paid current-month payment is 1, yet the
route computes a compliance rate of 0, because it counts only rentals whose
status is exactly `active`. -/
theorem C9_counterexample :
    ministryComplianceRate dbLivePaid monthJan = 0 ∧
    liveComplianceFraction dbLivePaid monthJan = 1 ∧
    ministryComplianceRate dbLivePaid monthJan ≠ liveComplianceFraction dbLivePaid monthJan := by
  have hA : (dbLivePaid.rentals.filter fun r => r.status == RentalStatus.active).length = 0 := by
    decide
  have hlive : (dbLivePaid.rentals.countP fun r => r.status.isLive) = 1 := by decide
  have hpaid : (dbLivePaid.rentals.countP fun r =>
      r.status.isLive && hasPaidPayment dbLivePaid r.id monthJan) = 1 := by decide
  have h0 : ministryComplianceRate dbLivePaid monthJan = 0 := by
    rw [ministryComplianceRate, hA]
    norm_num [jsRound]
  have h1 : liveComplianceFraction dbLivePaid monthJan = 1 := by
    rw [liveComplianceFraction, hlive, hpaid]
    norm_num
  exact ⟨h0, h1, by rw [h0, h1]; norm_num⟩

/- Claim C10 -/

/-- C10 (confirmed): Create Payment imposes two preconditions beyond those
the specification states — the target rental must have status exactly
`active` (a `renewal_pending` or `terminating` rental cannot record a
payment), and the submitted amount must equal the rental's monthly rent
exactly; every successful call implies both held. -/
theorem C10_payment_hidden_preconditions
    (caller : Caller) (db : DB) (rid : String) (m : Month) (amt : Int)
    (newId : String) (r : Rental)
    (hrole : caller.role = Role.tenant) (hrid : rid ≠ "") (hamt : 0 < amt)
    (hfind : (db.rentals.find? fun x => x.id == rid) = some r)
    (hten : r.tenantId = caller.userId) :
    (r.status ≠ RentalStatus.active →
      createPayment caller rid m amt newId db =
        (db, OpOut.failure 400 "Rental is not active")) ∧
    (r.status = RentalStatus.active →
      (db.payments.find? fun p => p.rentalId == rid && p.month == m) = none →
      amt ≠ r.monthlyRent →
      createPayment caller rid m amt newId db =
        (db, OpOut.failure 400 "Amount must be exactly the monthly rent")) ∧
    (∀ pay, (createPayment caller rid m amt newId db).2 = OpOut.success pay →
      r.status = RentalStatus.active ∧ amt = r.monthlyRent) := by
  have hrid' : (rid == "") = false := beq_eq_false_iff_ne.mpr hrid
  have hamt0 : (amt == (0 : Int)) = false := beq_eq_false_iff_ne.mpr (by omega)
  have hamtpos : ¬ (amt ≤ 0) := by omega
  refine ⟨?_, ?_, ?_⟩
  · intro hnact
    have hnact' : (r.status != RentalStatus.active) = true := by simpa using hnact
    simp [createPayment, hrole, hrid', hamt0, hamtpos, hfind, hten, hnact']
  · intro hact hdup hne
    have hne' : (amt != r.monthlyRent) = true := by simpa using hne
    simp [createPayment, hrole, hrid', hamt0, hamtpos, hfind, hten, hact, hdup, hne']
  · intro pay hs
    rcases createPayment_cases caller rid m amt newId db with
      ⟨_, h2⟩ | ⟨r2, hfindr2, hstat2, hamt2, _, heq⟩
    · rw [hs] at h2
      simp [OpOut.isSuccess] at h2
    · have : r2 = r := by
        rw [hfind] at hfindr2
        exact ((Option.some.injEq _ _).mp hfindr2).symm
      subst this
      exact ⟨hstat2, hamt2⟩

/-- Witness for C10: a renewal-pending (still live) rental cannot record a
payment; an active rental with a mismatched amount is rejected; and a
successful payment implies the rental was active and the amount equalled the
monthly rent. -/
theorem C10_witness :
    (createPayment tenant1 "ra" monthJan 100 "pay1" dbRenewPending =
      (dbRenewPending, OpOut.failure 400 "Rental is not active")) ∧
    (createPayment tenant1 "ra" monthJan 50 "pay1" dbActive =
      (dbActive, OpOut.failure 400 "Amount must be exactly the monthly rent")) ∧
    (RentalStatus.active = RentalStatus.active ∧ (100 : Int) = activeR.monthlyRent) :=
  ⟨(C10_payment_hidden_preconditions tenant1 dbRenewPending "ra" monthJan 100 "pay1"
      renewPendR rfl (by decide) (by decide) (by decide) rfl).1 (by decide),
   (C10_payment_hidden_preconditions tenant1 dbActive "ra" monthJan 50 "pay1"
      activeR rfl (by decide) (by decide) (by decide) rfl).2.1 rfl (by decide) (by decide),
   (C10_payment_hidden_preconditions tenant1 dbActive "ra" monthJan 100 "pay1"
      activeR rfl (by decide) (by decide) (by decide) rfl).2.2
     { id := "pay1", rentalId := "ra", amount := 100, month := monthJan,
       status := PayStatus.paid } (by decide)⟩

end Landlord
